import Mathlib

/-!
# Verification of the Smart-Waste-Delhi frontend data layer

A shallow embedding of the client-side data-fetching and normalization code of
the Smart-Waste-Delhi repository (React/TypeScript), together with theorems
settling the specification's claims about it.

Embedded pieces:
* `frontend/src/utils/parseWasteBinsCSV.ts` — the CSV location parser;
* `WasteChart.fetchTrends` / `AQIChart.fetchTrends` — the chart components'
  fetch-and-normalize steps;
* `DataProvider.fetchAirQualityData` — the shared context fetcher;
* `Dashboard` — the overview-metrics update and the two trend normalizers;
* `WasteManagement.fetchBins` / `AirQuality.fetchStations` — the snapshot
  replacement steps for bins and stations.

JavaScript runtime values are modelled by the inductive `JsValue`; numbers are
modelled by `ℚ` (every finite IEEE-754 double is a rational, and all numeric
literals compared or added in this codebase are exactly representable; NaN is
the separate constructor `JsValue.nan`; float rounding of arithmetic is not
modelled, and no claim depends on it).  Exceptions are modelled by `Except`:
`Except.error ()` is a thrown `TypeError`.
-/

set_option autoImplicit false

namespace SmartWasteDelhi

/-! ## A minimal model of JavaScript values -/

/-- JavaScript runtime values, as far as the embedded code can observe them. -/
inductive JsValue where
  | undefined
  | null
  | nan
  | bool (b : Bool)
  | num (q : ℚ)
  | str (s : String)
  | arr (elems : List JsValue)
  | obj (fields : List (String × JsValue))
deriving Repr, Inhabited

/-- JavaScript property access `v.k`.  Accessing a property of `undefined` or
`null` throws a `TypeError`; on an object it yields the field or `undefined`;
on any other value it yields `undefined` (prototype members are not used by
the embedded code, so they are not modelled). -/
def getProp (v : JsValue) (k : String) : Except Unit JsValue :=
  match v with
  | .undefined => .error ()
  | .null => .error ()
  | .obj fields => .ok ((fields.lookup k).getD .undefined)
  | _ => .ok .undefined

/-- JavaScript truthiness. -/
def truthy (v : JsValue) : Bool :=
  match v with
  | .undefined => false
  | .null => false
  | .nan => false
  | .bool b => b
  | .num q => decide (q ≠ 0)
  | .str s => decide (s ≠ "")
  | .arr _ => true
  | .obj _ => true

/-- JavaScript `a || b`. -/
def jsOr (a b : JsValue) : JsValue :=
  if truthy a then a else b

/-- JavaScript numeric coercion `Number(v)`, partially: `none` is NaN.
String-to-number and object-to-primitive coercion are not modelled (the
embedded code never reaches those cases under any claim's hypotheses). -/
def jsToNumber (v : JsValue) : Option ℚ :=
  match v with
  | .undefined => none
  | .null => some 0
  | .nan => none
  | .bool b => some (if b then 1 else 0)
  | .num q => some q
  | .str _ => none
  | .arr _ => none
  | .obj _ => none

/-- JavaScript `v < c` for a numeric literal `c` (NaN comparisons are false). -/
def jsLtNum (v : JsValue) (c : ℚ) : Bool :=
  match jsToNumber v with
  | some q => decide (q < c)
  | none => false

/-- JavaScript `v >= c` for a numeric literal `c` (NaN comparisons are false). -/
def jsGeNum (v : JsValue) (c : ℚ) : Bool :=
  match jsToNumber v with
  | some q => decide (c ≤ q)
  | none => false

/-- JavaScript `v * c` for a numeric literal `c` (ℚ stands in for the float
product; no claim depends on rounding). -/
def jsMulNum (v : JsValue) (c : ℚ) : JsValue :=
  match jsToNumber v with
  | some q => .num (q * c)
  | none => .nan

/-! ## The CSV location parser (`parseWasteBinsCSV.ts`) -/

/-- Output row type of the parser (`BinLocation` in the source). -/
structure BinLocation where
  name : String
  lat : ℚ
  lng : ℚ
deriving Repr, DecidableEq

/-- Split a list of characters at every occurrence of `sep` (the separator is
dropped; an empty input yields one empty piece, as in JavaScript
`String.prototype.split` with a one-character separator). -/
def splitChar (sep : Char) : List Char → List (List Char)
  | [] => [[]]
  | c :: rest =>
    let r := splitChar sep rest
    if c = sep then [] :: r
    else (c :: r.headI) :: r.tail

/-- JavaScript `s.split(sep)` for a one-character separator (the only kind the
embedded code uses: `'\n'` and `','`). -/
def jsSplit (sep : Char) (s : String) : List String :=
  (splitChar sep s.data).map (fun cs => ⟨cs⟩)

/-- JavaScript `s.replace(/"/g, '')`: drop every double-quote character. -/
def stripQuotes (s : String) : String :=
  ⟨s.data.filter (fun c => c ≠ '"')⟩

/-- JavaScript `Array.prototype.indexOf` on a string array: the index of the
first equal element, or `-1`. -/
def jsIndexOf (l : List String) (x : String) : Int :=
  match l.findIdx? (· == x) with
  | some n => (n : Int)
  | none => -1

/-- JavaScript `values[i]` on a string array with an `Int` index: `none` is
`undefined` (negative or out-of-range index). -/
def jsGetElem (l : List String) (i : Int) : Option String :=
  if i < 0 then none else l.get? i.toNat

/-- Numeric value of a list of decimal digit characters. -/
def digitsVal (ds : List Char) : Nat :=
  ds.foldl (fun a c => a * 10 + (c.toNat - 48)) 0

/-- Whitespace skipped by `parseFloat`. -/
def isSpaceChar (c : Char) : Bool :=
  c == ' ' || c == '\t' || c == '\n' || c == '\r'

/-- Exponent suffix of a JavaScript float literal (`e±digits`), 0 if absent. -/
def parseExponent (cs : List Char) : Int :=
  match cs with
  | e :: rest =>
    if e == 'e' || e == 'E' then
      match rest with
      | '-' :: ds =>
        if (ds.takeWhile Char.isDigit).isEmpty then 0
        else -(digitsVal (ds.takeWhile Char.isDigit) : Int)
      | '+' :: ds => (digitsVal (ds.takeWhile Char.isDigit) : Int)
      | ds => (digitsVal (ds.takeWhile Char.isDigit) : Int)
    else 0
  | [] => 0

/-- Model of JavaScript `parseFloat`: skip leading whitespace, optional sign,
longest decimal-literal prefix; `none` is NaN.  (`Infinity` literals are not
modelled; no input in this repository uses them.) -/
def parseFloat (s : String) : Option ℚ :=
  let cs := s.data.dropWhile isSpaceChar
  let sgn : ℚ := match cs with | '-' :: _ => -1 | _ => 1
  let cs1 : List Char := match cs with
    | '-' :: t => t
    | '+' :: t => t
    | _ => cs
  let intPart := cs1.takeWhile Char.isDigit
  let rest1 := cs1.dropWhile Char.isDigit
  let fracPart : List Char := match rest1 with
    | '.' :: t => t.takeWhile Char.isDigit
    | _ => []
  let rest2 : List Char := match rest1 with
    | '.' :: t => t.dropWhile Char.isDigit
    | _ => rest1
  if intPart.isEmpty && fracPart.isEmpty then none
  else
    let mant : ℚ := (digitsVal (intPart ++ fracPart) : ℚ) / ((10 : ℚ) ^ fracPart.length)
    some (sgn * mant * (10 : ℚ) ^ parseExponent rest2)

/-- The data-row loop of `parseWasteBinsCSV` (`for (let i = 1; ...)`).
A row is processed only when `values.length > locIdx`; the name cell is read
first (yielding `undefined` harmlessly when `nameIdx` is out of range), then
`values[locIdx].replace(/"/g, '')` throws a `TypeError` when `values[locIdx]`
is `undefined`, i.e. exactly when `locIdx` is negative (the guard already
rules out a too-large non-negative `locIdx`). -/
def parseRows (nameIdx locIdx : Int) : List String → Except Unit (List BinLocation)
  | [] => .ok []
  | row :: rest =>
    let values := jsSplit ',' row
    if (values.length : Int) > locIdx then
      let name? := jsGetElem values nameIdx
      match jsGetElem values locIdx with
      | none => .error ()
      | some cell =>
        let loc := jsSplit ',' (stripQuotes cell)
        let lat? := parseFloat loc.headI
        let lng? := match loc.get? 1 with
          | some t => parseFloat t
          | none => none
        match parseRows nameIdx locIdx rest with
        | .error e => .error e
        | .ok bins =>
          match name?, lat?, lng? with
          | some nm, some la, some ln => .ok ({ name := nm, lat := la, lng := ln } :: bins)
          | _, _, _ => .ok bins
    else
      parseRows nameIdx locIdx rest

/-- `parseWasteBinsCSV(csv)`: split on newline, split the header on commas,
locate the two documented column names by `indexOf`, then run the row loop.
`Except.error ()` models a thrown `TypeError`. -/
def parseWasteBinsCSV (csv : String) : Except Unit (List BinLocation) :=
  let lines := jsSplit '\n' csv
  let header := jsSplit ',' lines.headI
  let nameIdx := jsIndexOf header "Landfill Name"
  let locIdx := jsIndexOf header "Landfill Location (Lat, Long)"
  parseRows nameIdx locIdx (lines.drop 1)

/-! ## Chart components (`WasteChart.fetchTrends`, `AQIChart.fetchTrends`)

Each chart holds local state `{data, loading, error}` (React `useState`).  A
fetch step is modelled as a function of the HTTP response — `Except.error ()`
for a network/JSON failure, `Except.ok json` for a parsed body — and the
previous state.  The step is split into the synchronous invocation phase
(everything before the `await`) and the resolution phase, because one claim is
about the state in between. -/

/-- Is the value `undefined` or `null` (property access on it throws)? -/
def isNullish (v : JsValue) : Bool :=
  match v with
  | .undefined => true
  | .null => true
  | _ => false

/-- Local state of a chart component: `data` (a JS value, initially `[]`),
`loading`, and `error` (`null` modelled as `none`). -/
structure ChartState where
  data : JsValue
  loading : Bool
  error : Option String
deriving Repr

/-- Mount-time state of both chart components:
`useState<T[]>([])`, `useState(true)`, `useState<string | null>(null)`. -/
def initialChartState : ChartState :=
  { data := .arr [], loading := true, error := none }

/-- `json.trends.waste_collection` (may throw when `json` or `json.trends` is
nullish). -/
def extractWasteTrends (json : JsValue) : Except Unit JsValue := do
  let t ← getProp json "trends"
  getProp t "waste_collection"

/-- `json.trends.air_quality` (may throw when `json` or `json.trends` is
nullish). -/
def extractAqiTrends (json : JsValue) : Except Unit JsValue := do
  let t ← getProp json "trends"
  getProp t "air_quality"

/-- Invocation phase of both charts' `fetchTrends`: only `setLoading(true)`
runs before the `await` (no error reset in the source). -/
def chartInvoke (s : ChartState) : ChartState :=
  { s with loading := true }

/-- Resolution phase of a chart's `fetchTrends`: on success set
`data` to `extract(json) || []`; on a thrown error (network failure, JSON
failure, or the extractor throwing) set `error` to the fixed message;
`setLoading(false)` runs after the try/catch either way. -/
def chartResolve (extract : JsValue → Except Unit JsValue) (errMsg : String)
    (response : Except Unit JsValue) (s : ChartState) : ChartState :=
  match (do extract (← response)) with
  | .ok v => { s with data := jsOr v (.arr []), loading := false }
  | .error _ => { s with error := some errMsg, loading := false }

/-- One full `WasteChart.fetchTrends` step. -/
def wasteChartFetch (response : Except Unit JsValue) (s : ChartState) : ChartState :=
  chartResolve extractWasteTrends "Failed to load waste data" response (chartInvoke s)

/-- One full `AQIChart.fetchTrends` step. -/
def aqiChartFetch (response : Except Unit JsValue) (s : ChartState) : ChartState :=
  chartResolve extractAqiTrends "Failed to load AQI data" response (chartInvoke s)

/-- A chart fetch step against a stream of pending responses: it consumes
exactly the head response (the source issues a single `fetch` per step, with
no retry inside the step). -/
def wasteChartFetchStream (stream : List (Except Unit JsValue)) (s : ChartState) :
    ChartState × List (Except Unit JsValue) :=
  match stream with
  | [] => (s, [])
  | r :: rest => (wasteChartFetch r s, rest)

/-- `AQIChart` analogue of `wasteChartFetchStream`. -/
def aqiChartFetchStream (stream : List (Except Unit JsValue)) (s : ChartState) :
    ChartState × List (Except Unit JsValue) :=
  match stream with
  | [] => (s, [])
  | r :: rest => (aqiChartFetch r s, rest)

/-! ## `DataProvider.fetchAirQualityData` (DataContext)

State `{airQualityData, loading, error}`.  The response is
`Except String JsValue`: `Except.error msg` is a thrown error carrying its
message (the explicit `throw new Error('Failed to fetch air quality data')`
on a non-2xx response, or a network error). -/

/-- DataProvider slice of state for the air-quality fetcher. -/
structure ProviderState where
  airQualityData : JsValue
  loading : Bool
  error : Option String
deriving Repr

/-- Invocation phase of `fetchAirQualityData`:
`setLoadingAirQuality(true); setErrorAirQuality(null)` run before the
`await`. -/
def providerAirInvoke (s : ProviderState) : ProviderState :=
  { s with loading := true, error := none }

/-- Resolution phase of `fetchAirQualityData`: success stores the parsed body;
a thrown error stores `error.message`; the `finally` clears `loading`. -/
def providerAirResolve (response : Except String JsValue) (s : ProviderState) :
    ProviderState :=
  match response with
  | .ok data => { s with airQualityData := data, loading := false }
  | .error msg => { s with error := some msg, loading := false }

/-- One full `DataProvider.fetchAirQualityData` step. -/
def providerAirFetch (response : Except String JsValue) (s : ProviderState) :
    ProviderState :=
  providerAirResolve response (providerAirInvoke s)

/-! ## Dashboard (`Dashboard.tsx`)

The overview-metrics update and the two trend normalizers.  Only the `value`
fields of the four metric cards are modelled (icon/label/desc/trend/colour are
presentation constants; the one data-dependent `desc` string is a template
string irrelevant to every claim). -/

/-- `getProp`, defaulting a thrown access to `undefined`.  Used only under a
truthiness guard that rules the throwing case out, so it agrees with the
source there. -/
def getPropD (v : JsValue) (k : String) : JsValue :=
  match getProp v k with
  | .ok w => w
  | .error _ => .undefined

/-- The `value` fields of the Dashboard's four metric cards. -/
structure MetricsState where
  currentAqi : JsValue
  binsNeedingCollection : JsValue
  activeAlerts : JsValue
  citizensOnline : JsValue
deriving Repr

/-- Initial metric values: `'...'` placeholders and `'12.4k'`. -/
def initialMetrics : MetricsState :=
  { currentAqi := .str "..."
    binsNeedingCollection := .str "..."
    activeAlerts := .str "..."
    citizensOnline := .str "12.4k" }

/-- Success handler of the overview fetch: guarded by `data && data.overview`,
each card value becomes `data.overview.X || '<demo>'`. -/
def dashboardOverviewApply (data : JsValue) (m : MetricsState) : MetricsState :=
  if truthy data && truthy (getPropD data "overview") then
    let ov := getPropD data "overview"
    { currentAqi := jsOr (getPropD ov "current_aqi") (.str "168")
      binsNeedingCollection := jsOr (getPropD ov "bins_needing_collection") (.str "47")
      activeAlerts := jsOr (getPropD ov "active_alerts") (.str "3")
      citizensOnline := .str "12.4k" }
  else m

/-- One overview-fetch step: success applies the handler, a rejected fetch
falls to the demo values of the `.catch` branch. -/
def dashboardOverviewStep (response : Except Unit JsValue) (m : MetricsState) :
    MetricsState :=
  match response with
  | .ok data => dashboardOverviewApply data m
  | .error _ =>
    { currentAqi := .str "168"
      binsNeedingCollection := .str "47"
      activeAlerts := .str "3"
      citizensOnline := .str "12.4k" }

/-- `Array.prototype.map` with a callback that may throw: only arrays have a
callable `.map` (on any other value the call throws a `TypeError`). -/
def jsMapArray (v : JsValue) (f : JsValue → Except Unit JsValue) :
    Except Unit (List JsValue) :=
  match v with
  | .arr l => l.mapM f
  | _ => .error ()

/-- Dashboard AQI trend normalizer body (lines 103-109): one backend entry
`d` becomes `{timestamp, AQI, Healthy, Moderate, Unhealthy}` with the AQI
value copied into exactly the bucket its comparisons select. -/
def normalizeAqiEntry (d : JsValue) : Except Unit JsValue := do
  let ts ← getProp d "timestamp"
  let aqi ← getProp d "aqi"
  .ok (.obj
    [("timestamp", ts), ("AQI", aqi),
     ("Healthy", if jsLtNum aqi 100 then aqi else .num 0),
     ("Moderate", if jsGeNum aqi 100 && jsLtNum aqi 200 then aqi else .num 0),
     ("Unhealthy", if jsGeNum aqi 200 then aqi else .num 0)])

/-- Dashboard waste trend normalizer body (lines 112-116). -/
def normalizeWasteEntry (d : JsValue) : Except Unit JsValue := do
  let date ← getProp d "date"
  let wc ← getProp d "waste_collected"
  .ok (.obj [("date", date), ("Collected", wc), ("Predicted", jsMulNum wc (11 / 10))])

/-- `(data.trends.air_quality || []).map(normalizeAqiEntry)`. -/
def normalizeAqiTrends (v : JsValue) : Except Unit (List JsValue) :=
  jsMapArray v normalizeAqiEntry

/-- `(data.trends.waste_collection || []).map(normalizeWasteEntry)`. -/
def normalizeWasteTrends (v : JsValue) : Except Unit (List JsValue) :=
  jsMapArray v normalizeWasteEntry

/-- Dashboard chart state: the two normalized series. -/
structure DashChartsState where
  aqiData : List JsValue
  wasteData : List JsValue
deriving Repr

/-- Success handler of the trends fetch, guarded by `data && data.trends`. -/
def dashboardTrendsApply (data : JsValue) (s : DashChartsState) :
    Except Unit DashChartsState :=
  if truthy data && truthy (getPropD data "trends") then do
    let tr := getPropD data "trends"
    let aqi ← normalizeAqiTrends (jsOr (getPropD tr "air_quality") (.arr []))
    let waste ← normalizeWasteTrends (jsOr (getPropD tr "waste_collection") (.arr []))
    .ok { aqiData := aqi, wasteData := waste }
  else .ok s

/-- One trends-fetch step.  The `.catch` branch builds demo series from
`Math.random()`; that nondeterminism is passed in as the `demoAqi`/`demoWaste`
arguments. -/
def dashboardTrendsStep (demoAqi demoWaste : List JsValue)
    (response : Except Unit JsValue) (s : DashChartsState) : DashChartsState :=
  match response with
  | .ok data =>
    match dashboardTrendsApply data s with
    | .ok s' => s'
    | .error _ => { aqiData := demoAqi, wasteData := demoWaste }
  | .error _ => { aqiData := demoAqi, wasteData := demoWaste }

/-! ## Snapshot pages (`WasteManagement.fetchBins`, `AirQuality.fetchStations`)

Both pages hold the entity snapshot (`bins` / `stations`), a selected entity,
and a loading flag.  Further presentation state (`statistics`, `routeSummary`,
`averageAQI`, `healthRecommendations`) is set by separate `useState` setters
that never read or write the snapshot and is outside every claim, so it is not
modelled.  `new Date().toISOString()` in the demo data is passed in as `now`. -/

/-- JavaScript `v.length > 0` (arrays and strings have `.length`, anything
else yields `undefined` and the comparison is false). -/
def jsLengthPos (v : JsValue) : Bool :=
  match v with
  | .arr l => decide (0 < l.length)
  | .str s => decide (0 < s.length)
  | _ => false

/-- JavaScript `v[0]` (first array element or one-character string;
`undefined` otherwise — numeric indexing of plain objects is not used by the
embedded code). -/
def jsElem0 (v : JsValue) : JsValue :=
  match v with
  | .arr (x :: _) => x
  | .str s =>
    match s.data with
    | c :: _ => .str ⟨[c]⟩
    | [] => .undefined
  | _ => .undefined

/-- `data.map_data?.waste_bins || []` (the initial `data.map_data` access
throws if `data` is nullish; the optional chain then guards the second). -/
def extractBinsList (data : JsValue) : Except Unit JsValue := do
  let md ← getProp data "map_data"
  let raw := if isNullish md then JsValue.undefined else getPropD md "waste_bins"
  .ok (jsOr raw (.arr []))

/-- `data.map_data?.air_quality_stations || []`. -/
def extractStationsList (data : JsValue) : Except Unit JsValue := do
  let md ← getProp data "map_data"
  let raw := if isNullish md then JsValue.undefined else getPropD md "air_quality_stations"
  .ok (jsOr raw (.arr []))

/-- Page state for `WasteManagement`. -/
structure WasteMgmtState where
  bins : JsValue
  selectedBin : JsValue
  loading : Bool
deriving Repr

/-- Page state for `AirQuality`. -/
structure AirQualityState where
  stations : JsValue
  selectedStation : JsValue
  loading : Bool
deriving Repr

/-- The six hard-coded demo bins of the `fetchBins` catch branch. -/
def demoBins (now : String) : List JsValue :=
  [.obj [("id", .num 1), ("name", .str "CP-001"), ("location", .str "Connaught Place Metro"),
     ("fill_level", .num 87), ("needs_collection", .bool true), ("priority", .str "high"),
     ("last_updated", .str now), ("latitude", .num 28.6315), ("longitude", .num 77.2167),
     ("bin_type", .str "Smart"), ("capacity", .num 240)],
   .obj [("id", .num 2), ("name", .str "IG-002"), ("location", .str "India Gate Parking"),
     ("fill_level", .num 34), ("needs_collection", .bool false), ("priority", .str "low"),
     ("last_updated", .str now), ("latitude", .num 28.6129), ("longitude", .num 77.2295),
     ("bin_type", .str "Smart"), ("capacity", .num 240)],
   .obj [("id", .num 3), ("name", .str "KB-003"), ("location", .str "Karol Bagh Market"),
     ("fill_level", .num 92), ("needs_collection", .bool true), ("priority", .str "urgent"),
     ("last_updated", .str now), ("latitude", .num 28.6519), ("longitude", .num 77.1909),
     ("bin_type", .str "Smart"), ("capacity", .num 360)],
   .obj [("id", .num 4), ("name", .str "LN-004"), ("location", .str "Lajpat Nagar Central"),
     ("fill_level", .num 15), ("needs_collection", .bool false), ("priority", .str "low"),
     ("last_updated", .str now), ("latitude", .num 28.5678), ("longitude", .num 77.2434),
     ("bin_type", .str "Standard"), ("capacity", .num 180)],
   .obj [("id", .num 5), ("name", .str "CP-005"), ("location", .str "Central Park"),
     ("fill_level", .num 76), ("needs_collection", .bool true), ("priority", .str "medium"),
     ("last_updated", .str now), ("latitude", .num 28.6328), ("longitude", .num 77.2197),
     ("bin_type", .str "Smart"), ("capacity", .num 240)],
   .obj [("id", .num 6), ("name", .str "DU-006"), ("location", .str "Delhi University"),
     ("fill_level", .num 45), ("needs_collection", .bool false), ("priority", .str "low"),
     ("last_updated", .str now), ("latitude", .num 28.6958), ("longitude", .num 77.2167),
     ("bin_type", .str "Smart"), ("capacity", .num 300)]]

/-- The four hard-coded demo stations of the `fetchStations` catch branch. -/
def demoStations (now : String) : List JsValue :=
  [.obj [("id", .num 1), ("name", .str "Connaught Place"), ("aqi", .num 168),
     ("aqi_category", .str "Unhealthy"), ("latitude", .num 28.6315), ("longitude", .num 77.2167),
     ("timestamp", .str now), ("pm25", .num 78), ("pm10", .num 120), ("no2", .num 45),
     ("so2", .num 12), ("co", .num 1.2), ("o3", .num 32)],
   .obj [("id", .num 2), ("name", .str "India Gate"), ("aqi", .num 145),
     ("aqi_category", .str "Unhealthy for Sensitive"), ("latitude", .num 28.6129), ("longitude", .num 77.2295),
     ("timestamp", .str now), ("pm25", .num 65), ("pm10", .num 98), ("no2", .num 38),
     ("so2", .num 8), ("co", .num 0.9), ("o3", .num 28)],
   .obj [("id", .num 3), ("name", .str "Karol Bagh"), ("aqi", .num 189),
     ("aqi_category", .str "Unhealthy"), ("latitude", .num 28.6519), ("longitude", .num 77.1909),
     ("timestamp", .str now), ("pm25", .num 89), ("pm10", .num 145), ("no2", .num 52),
     ("so2", .num 15), ("co", .num 1.5), ("o3", .num 41)],
   .obj [("id", .num 4), ("name", .str "Lajpat Nagar"), ("aqi", .num 156),
     ("aqi_category", .str "Unhealthy"), ("latitude", .num 28.5678), ("longitude", .num 77.2434),
     ("timestamp", .str now), ("pm25", .num 71), ("pm10", .num 108), ("no2", .num 42),
     ("so2", .num 11), ("co", .num 1.1), ("o3", .num 35)]]

/-- Success handler of `fetchBins`: replace the snapshot with the extracted
list; select its first element when non-empty. -/
def wasteMgmtApply (data : JsValue) (s : WasteMgmtState) : Except Unit WasteMgmtState := do
  let binsData ← extractBinsList data
  let sel := if jsLengthPos binsData then jsElem0 binsData else s.selectedBin
  .ok { s with bins := binsData, selectedBin := sel }

/-- One full `WasteManagement.fetchBins` step: `setLoading(true)`, then the
success handler or the demo catch branch, then `setLoading(false)`. -/
def wasteMgmtFetchBins (now : String) (response : Except Unit JsValue)
    (s : WasteMgmtState) : WasteMgmtState :=
  let s1 := { s with loading := true }
  let s2 :=
    match response with
    | .ok data =>
      match wasteMgmtApply data s1 with
      | .ok s' => s'
      | .error _ =>
        { s1 with bins := .arr (demoBins now), selectedBin := (demoBins now).headI }
    | .error _ =>
      { s1 with bins := .arr (demoBins now), selectedBin := (demoBins now).headI }
  { s2 with loading := false }

/-- The fold body of
`stationsData.reduce((sum, station) => sum + station.aqi, 0)`, run for its
effect: `station.aqi` throws exactly when the entry is nullish, and the
addition itself never throws on JavaScript values.  The numeric result feeds
only `setAverageAQI`/`setHealthRecommendations` (display state outside the
modelled projection; `getHealthRecommendations` is throw-free comparisons
over its argument), so the sum's value is not tracked — its throw is. -/
def reduceAqiThrows : List JsValue → Except Unit Unit
  | [] => .ok ()
  | station :: rest => do
    let _ ← getProp station "aqi"
    reduceAqiThrows rest

/-- The statistics block of `fetchStations`, entered when
`stationsData.length > 0`: only arrays have a callable `.reduce` (a non-empty
string passes the length guard but its `.reduce` is `undefined`, so the call
throws a `TypeError`); on an array the callback reads every element's
`aqi`. -/
def stationsStatsCheck (stationsData : JsValue) : Except Unit Unit :=
  match stationsData with
  | .arr l => reduceAqiThrows l
  | _ => .error ()

/-- Success handler of `fetchStations`: `setStations(stationsData)`, then —
when `stationsData.length > 0` — the `reduce` over `station.aqi` (which may
throw, sending the whole step to the demo catch branch so that the
intermediate `setStations` is overwritten), the unmodelled
`setAverageAQI`/`setHealthRecommendations` display updates, and
`setSelectedStation(stationsData[0])`. -/
def airQualityApply (data : JsValue) (s : AirQualityState) : Except Unit AirQualityState := do
  let stationsData ← extractStationsList data
  if jsLengthPos stationsData then do
    let _ ← stationsStatsCheck stationsData
    .ok { s with stations := stationsData, selectedStation := jsElem0 stationsData }
  else
    .ok { s with stations := stationsData }

/-- One full `AirQuality.fetchStations` step. -/
def airQualityFetchStations (now : String) (response : Except Unit JsValue)
    (s : AirQualityState) : AirQualityState :=
  let s1 := { s with loading := true }
  let s2 :=
    match response with
    | .ok data =>
      match airQualityApply data s1 with
      | .ok s' => s'
      | .error _ =>
        { s1 with stations := .arr (demoStations now), selectedStation := (demoStations now).headI }
    | .error _ =>
      { s1 with stations := .arr (demoStations now), selectedStation := (demoStations now).headI }
  { s2 with loading := false }

/-- Mount-time state of `WasteManagement`: `useState<Bin[]>([])`,
`useState<Bin | null>(null)`, `useState(true)`. -/
def initialWasteMgmtState : WasteMgmtState :=
  { bins := .arr [], selectedBin := .null, loading := true }

/-- Mount-time state of `AirQuality`. -/
def initialAirQualityState : AirQualityState :=
  { stations := .arr [], selectedStation := .null, loading := true }

/-! ## Helper lemmas -/

/-- A successful `mapM` over `Except` relates input and output pointwise. -/
theorem mapM_ok_forall2 {f : JsValue → Except Unit JsValue} :
    ∀ {l l' : List JsValue}, l.mapM f = .ok l' →
      List.Forall₂ (fun a b => f a = .ok b) l l' := by
  intro l
  induction l with
  | nil =>
    intro l' h
    simp only [List.mapM_nil, pure, Except.pure] at h
    cases h
    exact .nil
  | cons a t ih =>
    intro l' h
    rw [List.mapM_cons] at h
    cases hfa : f a with
    | error e => rw [hfa] at h; simp [Bind.bind, Except.bind] at h
    | ok b =>
      rw [hfa] at h
      cases hmt : t.mapM f with
      | error e => rw [hmt] at h; simp [Bind.bind, Except.bind] at h
      | ok bs =>
        rw [hmt] at h
        simp only [Bind.bind, Except.bind, pure, Except.pure] at h
        cases h
        exact .cons hfa (ih hmt)

/-- Length part of `mapM_ok_forall2`. -/
theorem mapM_ok_length {f : JsValue → Except Unit JsValue} {l l' : List JsValue}
    (h : l.mapM f = .ok l') : l'.length = l.length :=
  (mapM_ok_forall2 h).length_eq.symm

/-- Pointwise part of `mapM_ok_forall2`, via indices. -/
theorem mapM_ok_get {f : JsValue → Except Unit JsValue} {l l' : List JsValue}
    (h : l.mapM f = .ok l') (i : ℕ) (hi : i < l.length) (hi' : i < l'.length) :
    f (l.get ⟨i, hi⟩) = .ok (l'.get ⟨i, hi'⟩) := by
  have := mapM_ok_forall2 h
  exact List.forall₂_iff_get.mp this |>.2 i hi hi'

/-! ## Claims -/

/-- C1: the specification's end-to-end example
`"Landfill Name,Landfill Location (Lat, Long)\nSite A,\"28.61,77.20\""` is
claimed to parse to `[{name: "Site A", lat: 28.61, lng: 77.20}]`.  The code
instead throws: the expected location column name itself contains a comma, so
after the header is split on commas `indexOf` returns `-1`, `values[-1]` is
`undefined`, and `.replace` throws a `TypeError`.  This theorem evaluates the
embedded parser at the spec's exact input. -/
theorem claim_C1 :
    parseWasteBinsCSV "Landfill Name,Landfill Location (Lat, Long)\nSite A,\"28.61,77.20\""
      = .error () := by rfl

/-- C3: `parseWasteBinsCSV` is claimed total, silently skipping short rows and
rows with non-numeric coordinates.  In fact every input with at least one data
row throws (the location column lookup always yields `-1`); this theorem
evaluates the parser at a row whose coordinates are non-numeric — the spec
says the row is excluded and an empty list returned, the code throws. -/
theorem claim_C3 :
    parseWasteBinsCSV "Landfill Name,Landfill Location (Lat, Long)\nBad Site,\"abc,def\""
      = .error () := by rfl

/-- C4: `parseWasteBinsCSV` is deterministic and idempotent: it is a pure
function of its input string (the embedding is a Lean function, and the source
reads no state other than its argument), so two calls on the same text agree. -/
theorem claim_C4 : ∀ s : String, parseWasteBinsCSV s = parseWasteBinsCSV s :=
  fun _ => rfl

/-- C2: whenever the expected nested trend key is absent from the response
(`json.trends` missing or nullish — the access throws and is caught — or
`json.trends` present without the trend key — the access yields `undefined`
and `|| []` kicks in), the chart's `data` state after the mount fetch equals
the empty array, never `undefined`/`null`; no exception escapes (the step is a
total function into states — every throw is absorbed by the catch branch). -/
theorem claim_C2 :
    (∀ json : JsValue,
      extractWasteTrends json = .error () ∨ extractWasteTrends json = .ok .undefined →
      (wasteChartFetch (.ok json) initialChartState).data = .arr []) ∧
    (∀ json : JsValue,
      extractAqiTrends json = .error () ∨ extractAqiTrends json = .ok .undefined →
      (aqiChartFetch (.ok json) initialChartState).data = .arr []) := by
  constructor
  · intro json h
    rcases h with h | h <;>
      simp [wasteChartFetch, chartResolve, chartInvoke, initialChartState,
        Bind.bind, Except.bind, h, jsOr, truthy]
  · intro json h
    rcases h with h | h <;>
      simp [aqiChartFetch, chartResolve, chartInvoke, initialChartState,
        Bind.bind, Except.bind, h, jsOr, truthy]

/-- C2 witness: the spec's example response `{trends: {}}`, fed to both chart
components at their mount state. -/
theorem claim_C2_witness :
    (wasteChartFetch (.ok (.obj [("trends", .obj [])])) initialChartState).data = .arr [] ∧
    (aqiChartFetch (.ok (.obj [("trends", .obj [])])) initialChartState).data = .arr [] :=
  ⟨claim_C2.1 (.obj [("trends", .obj [])]) (Or.inr rfl),
   claim_C2.2 (.obj [("trends", .obj [])]) (Or.inr rfl)⟩

/-- C5 counterexample: the claim says every fetch-and-normalize operation
clears `error` to null at invocation, from every starting state.  The chart
components' `fetchTrends` runs only `setLoading(true)` before the `await`:
from a state carrying a stale error string, the error survives the invocation
phase. -/
theorem claim_C5_counterexample :
    (chartInvoke { data := .arr [], loading := false, error := some "stale" }).error
      ≠ none := by
  simp [chartInvoke]

/-- C5 (amended): at invocation every fetcher sets `loading = true`;
`DataProvider.fetchAirQualityData` additionally clears `error` to null, but
the chart components' `fetchTrends` leave the previous error untouched. -/
theorem claim_C5 :
    ∀ (s : ChartState) (t : ProviderState),
      (chartInvoke s).loading = true ∧ (chartInvoke s).error = s.error ∧
      (providerAirInvoke t).loading = true ∧ (providerAirInvoke t).error = none :=
  fun _ _ => ⟨rfl, rfl, rfl, rfl⟩

/-- C6: on a failing fetch step (network rejection, or the nested extraction
throwing) each chart sets its fixed error string, ends with `loading = false`,
leaves `data` untouched, and consumes exactly one response from the pending
stream (no retry within the step). -/
theorem claim_C6 :
    ∀ (r : Except Unit JsValue) (rest : List (Except Unit JsValue)) (s : ChartState),
      ((do extractWasteTrends (← r)) = Except.error () →
        (wasteChartFetchStream (r :: rest) s).1.error = some "Failed to load waste data" ∧
        (wasteChartFetchStream (r :: rest) s).1.loading = false ∧
        (wasteChartFetchStream (r :: rest) s).1.data = s.data ∧
        (wasteChartFetchStream (r :: rest) s).2 = rest) ∧
      ((do extractAqiTrends (← r)) = Except.error () →
        (aqiChartFetchStream (r :: rest) s).1.error = some "Failed to load AQI data" ∧
        (aqiChartFetchStream (r :: rest) s).1.loading = false ∧
        (aqiChartFetchStream (r :: rest) s).1.data = s.data ∧
        (aqiChartFetchStream (r :: rest) s).2 = rest) := by
  intro r rest s
  constructor
  · intro h
    simp [wasteChartFetchStream, wasteChartFetch, chartResolve, chartInvoke, h]
  · intro h
    simp [aqiChartFetchStream, aqiChartFetch, chartResolve, chartInvoke, h]

/-- C6 witness: a network failure at mount state, for both charts. -/
theorem claim_C6_witness :
    ((wasteChartFetchStream [.error ()] initialChartState).1.error
        = some "Failed to load waste data" ∧
      (wasteChartFetchStream [.error ()] initialChartState).1.loading = false ∧
      (wasteChartFetchStream [.error ()] initialChartState).1.data
        = initialChartState.data ∧
      (wasteChartFetchStream [.error ()] initialChartState).2 = []) ∧
    ((aqiChartFetchStream [.error ()] initialChartState).1.error
        = some "Failed to load AQI data" ∧
      (aqiChartFetchStream [.error ()] initialChartState).1.loading = false ∧
      (aqiChartFetchStream [.error ()] initialChartState).1.data
        = initialChartState.data ∧
      (aqiChartFetchStream [.error ()] initialChartState).2 = []) :=
  ⟨(claim_C6 (.error ()) [] initialChartState).1 rfl,
   (claim_C6 (.error ()) [] initialChartState).2 rfl⟩

/-- C7: a successful poll replaces the snapshot wholesale: the resulting
`bins` (resp. `stations`) state is exactly the list extracted from the
response, and two runs from different prior states that receive the same
response end in the same snapshot.  For `fetchStations` a successful step
also requires the statistics block of the try body not to throw (a nullish
station entry or a truthy non-array snapshot makes `reduce`/`station.aqi`
throw, landing the step in the demo catch branch instead). -/
theorem claim_C7 :
    ∀ (now : String) (json v w : JsValue) (s s₂ : WasteMgmtState)
      (t t₂ : AirQualityState),
      (extractBinsList json = .ok v →
        (wasteMgmtFetchBins now (.ok json) s).bins = v ∧
        (wasteMgmtFetchBins now (.ok json) s).bins
          = (wasteMgmtFetchBins now (.ok json) s₂).bins) ∧
      (extractStationsList json = .ok w →
        (jsLengthPos w = true → stationsStatsCheck w = .ok ()) →
        (airQualityFetchStations now (.ok json) t).stations = w ∧
        (airQualityFetchStations now (.ok json) t).stations
          = (airQualityFetchStations now (.ok json) t₂).stations) := by
  intro now json v w s s₂ t t₂
  constructor
  · intro h
    simp [wasteMgmtFetchBins, wasteMgmtApply, h, Bind.bind, Except.bind]
  · intro h hr
    cases hp : jsLengthPos w with
    | true =>
      have hc := hr hp
      simp [airQualityFetchStations, airQualityApply, h, hp, hc, Bind.bind, Except.bind]
    | false =>
      simp [airQualityFetchStations, airQualityApply, h, hp, Bind.bind, Except.bind]

/-- C7 witness: a concrete map response carrying one bin and one station, run
from the mount state and from a state already holding a previous snapshot. -/
theorem claim_C7_witness :
    ((wasteMgmtFetchBins "now"
        (.ok (.obj [("map_data", .obj
          [("waste_bins", .arr [.obj [("id", .num 9)]]),
           ("air_quality_stations", .arr [.obj [("id", .num 8)]])])]))
        initialWasteMgmtState).bins = .arr [.obj [("id", .num 9)]] ∧
      (wasteMgmtFetchBins "now"
        (.ok (.obj [("map_data", .obj
          [("waste_bins", .arr [.obj [("id", .num 9)]]),
           ("air_quality_stations", .arr [.obj [("id", .num 8)]])])]))
        initialWasteMgmtState).bins
        = (wasteMgmtFetchBins "now"
            (.ok (.obj [("map_data", .obj
              [("waste_bins", .arr [.obj [("id", .num 9)]]),
               ("air_quality_stations", .arr [.obj [("id", .num 8)]])])]))
            { bins := .arr (demoBins "old"), selectedBin := .null, loading := false }).bins) ∧
    ((airQualityFetchStations "now"
        (.ok (.obj [("map_data", .obj
          [("waste_bins", .arr [.obj [("id", .num 9)]]),
           ("air_quality_stations", .arr [.obj [("id", .num 8)]])])]))
        initialAirQualityState).stations = .arr [.obj [("id", .num 8)]] ∧
      (airQualityFetchStations "now"
        (.ok (.obj [("map_data", .obj
          [("waste_bins", .arr [.obj [("id", .num 9)]]),
           ("air_quality_stations", .arr [.obj [("id", .num 8)]])])]))
        initialAirQualityState).stations
        = (airQualityFetchStations "now"
            (.ok (.obj [("map_data", .obj
              [("waste_bins", .arr [.obj [("id", .num 9)]]),
               ("air_quality_stations", .arr [.obj [("id", .num 8)]])])]))
            { stations := .arr (demoStations "old"), selectedStation := .null,
              loading := false }).stations) :=
  ⟨(claim_C7 "now" _ _ (.arr [.obj [("id", .num 8)]]) initialWasteMgmtState
      { bins := .arr (demoBins "old"), selectedBin := .null, loading := false }
      initialAirQualityState
      { stations := .arr (demoStations "old"), selectedStation := .null,
        loading := false }).1 rfl,
   (claim_C7 "now" _ (.arr [.obj [("id", .num 9)]]) _ initialWasteMgmtState
      { bins := .arr (demoBins "old"), selectedBin := .null, loading := false }
      initialAirQualityState
      { stations := .arr (demoStations "old"), selectedStation := .null,
        loading := false }).2 rfl (fun _ => rfl)⟩

/-- C8: the trend normalizers preserve the backend sequence exactly: a
successful normalization has the same length as its input, its `i`-th entry is
the image of the `i`-th input entry (so duplicates pass through, nothing is
reordered or deduplicated), and `WasteChart` stores the extracted trend list
itself, unchanged. -/
theorem claim_C8 :
    (∀ l l' : List JsValue, normalizeAqiTrends (.arr l) = .ok l' →
      l'.length = l.length ∧
      ∀ (i : ℕ) (h : i < l.length) (h' : i < l'.length),
        normalizeAqiEntry (l.get ⟨i, h⟩) = .ok (l'.get ⟨i, h'⟩)) ∧
    (∀ l l' : List JsValue, normalizeWasteTrends (.arr l) = .ok l' →
      l'.length = l.length ∧
      ∀ (i : ℕ) (h : i < l.length) (h' : i < l'.length),
        normalizeWasteEntry (l.get ⟨i, h⟩) = .ok (l'.get ⟨i, h'⟩)) ∧
    (∀ (l : List JsValue) (s : ChartState),
      (wasteChartFetch
        (.ok (.obj [("trends", .obj [("waste_collection", .arr l)])])) s).data
        = .arr l) := by
  refine ⟨?_, ?_, ?_⟩
  · intro l l' h
    exact ⟨mapM_ok_length h, fun i hi hi' => mapM_ok_get h i hi hi'⟩
  · intro l l' h
    exact ⟨mapM_ok_length h, fun i hi hi' => mapM_ok_get h i hi hi'⟩
  · intro l s
    rfl

/-- C8 witness: a duplicated AQI entry passes through in place, and the waste
normalizer on the empty list yields the empty list. -/
theorem claim_C8_witness :
    (([.obj [("timestamp", .str "t1"), ("AQI", .num 150), ("Healthy", .num 0),
        ("Moderate", .num 150), ("Unhealthy", .num 0)],
       .obj [("timestamp", .str "t1"), ("AQI", .num 150), ("Healthy", .num 0),
        ("Moderate", .num 150), ("Unhealthy", .num 0)]] : List JsValue).length
      = ([.obj [("timestamp", .str "t1"), ("aqi", .num 150)],
          .obj [("timestamp", .str "t1"), ("aqi", .num 150)]] : List JsValue).length) ∧
    normalizeAqiEntry (.obj [("timestamp", .str "t1"), ("aqi", .num 150)])
      = .ok (.obj [("timestamp", .str "t1"), ("AQI", .num 150), ("Healthy", .num 0),
          ("Moderate", .num 150), ("Unhealthy", .num 0)]) ∧
    (([] : List JsValue).length = ([] : List JsValue).length) := by
  have h := claim_C8.1
    [.obj [("timestamp", .str "t1"), ("aqi", .num 150)],
     .obj [("timestamp", .str "t1"), ("aqi", .num 150)]]
    [.obj [("timestamp", .str "t1"), ("AQI", .num 150), ("Healthy", .num 0),
        ("Moderate", .num 150), ("Unhealthy", .num 0)],
     .obj [("timestamp", .str "t1"), ("AQI", .num 150), ("Healthy", .num 0),
        ("Moderate", .num 150), ("Unhealthy", .num 0)]] (by rfl)
  exact ⟨h.1, h.2 1 (by decide) (by decide), (claim_C8.2.1 [] [] (by rfl)).1⟩

/-- C9: for a trend entry whose `aqi` field is a finite number `q`, the
normalized point carries `q` in its `AQI` field and in exactly one of the
`Healthy` (`q < 100`) / `Moderate` (`100 ≤ q < 200`) / `Unhealthy`
(`200 ≤ q`) buckets, the other two being `0`, so the three buckets sum to the
point's AQI. -/
theorem claim_C9 :
    ∀ (d : JsValue) (q : ℚ), getProp d "aqi" = .ok (.num q) →
      ∃ p, normalizeAqiEntry d = .ok p ∧
        getProp p "AQI" = .ok (.num q) ∧
        ∃ h m u : ℚ,
          getProp p "Healthy" = .ok (.num h) ∧
          getProp p "Moderate" = .ok (.num m) ∧
          getProp p "Unhealthy" = .ok (.num u) ∧
          h + m + u = q ∧
          ((q < 100 ∧ h = q ∧ m = 0 ∧ u = 0) ∨
           (100 ≤ q ∧ q < 200 ∧ m = q ∧ h = 0 ∧ u = 0) ∨
           (200 ≤ q ∧ u = q ∧ h = 0 ∧ m = 0)) := by
  intro d q hq
  cases d with
  | obj fs =>
    have haqi : (fs.lookup "aqi").getD .undefined = .num q := by
      simpa [getProp] using hq
    have hsucc : normalizeAqiEntry (.obj fs) = .ok (.obj
        [("timestamp", (fs.lookup "timestamp").getD .undefined),
         ("AQI", .num q),
         ("Healthy", if jsLtNum (.num q) 100 then .num q else .num 0),
         ("Moderate", if jsGeNum (.num q) 100 && jsLtNum (.num q) 200
           then .num q else .num 0),
         ("Unhealthy", if jsGeNum (.num q) 200 then .num q else .num 0)]) := by
      simp [normalizeAqiEntry, getProp, Bind.bind, Except.bind, haqi]
    refine ⟨_, hsucc, by simp [getProp, List.lookup], ?_⟩
    rcases lt_or_le q 100 with h1 | h1
    · have e1 : jsLtNum (.num q) 100 = true := by simp [jsLtNum, jsToNumber, h1]
      have e2 : (jsGeNum (.num q) 100 && jsLtNum (.num q) 200) = false := by
        simp [jsGeNum, jsLtNum, jsToNumber, h1.not_le]
      have e3 : jsGeNum (.num q) 200 = false := by
        simp [jsGeNum, jsToNumber, (h1.trans (by norm_num : (100 : ℚ) < 200)).not_le]
      refine ⟨q, 0, 0, ?_, ?_, ?_, by ring, Or.inl ⟨h1, rfl, rfl, rfl⟩⟩ <;>
        simp [getProp, List.lookup, e1, e2, e3]
    · rcases lt_or_le q 200 with h2 | h2
      · have e1 : jsLtNum (.num q) 100 = false := by
          simp [jsLtNum, jsToNumber, h1.not_lt]
        have e2 : (jsGeNum (.num q) 100 && jsLtNum (.num q) 200) = true := by
          simp [jsGeNum, jsLtNum, jsToNumber, h1, h2]
        have e3 : jsGeNum (.num q) 200 = false := by
          simp [jsGeNum, jsToNumber, h2.not_le]
        refine ⟨0, q, 0, ?_, ?_, ?_, by ring, Or.inr (Or.inl ⟨h1, h2, rfl, rfl, rfl⟩)⟩ <;>
          simp [getProp, List.lookup, e1, e2, e3]
      · have e1 : jsLtNum (.num q) 100 = false := by
          simp [jsLtNum, jsToNumber, (le_trans (by norm_num : (100 : ℚ) ≤ 200) h2).not_lt]
        have e2 : (jsGeNum (.num q) 100 && jsLtNum (.num q) 200) = false := by
          simp [jsGeNum, jsLtNum, jsToNumber, h2.not_lt]
        have e3 : jsGeNum (.num q) 200 = true := by
          simp [jsGeNum, jsToNumber, h2]
        refine ⟨0, 0, q, ?_, ?_, ?_, by ring, Or.inr (Or.inr ⟨h2, rfl, rfl, rfl⟩)⟩ <;>
          simp [getProp, List.lookup, e1, e2, e3]
  | undefined => simp [getProp] at hq
  | null => simp [getProp] at hq
  | nan => simp [getProp] at hq
  | bool b => simp [getProp] at hq
  | num r => simp [getProp] at hq
  | str s => simp [getProp] at hq
  | arr l => simp [getProp] at hq

/-- C9 witness: a concrete entry with `aqi = 150` (the Moderate bucket). -/
theorem claim_C9_witness :
    ∃ p, normalizeAqiEntry (.obj [("timestamp", .str "t"), ("aqi", .num 150)]) = .ok p ∧
      getProp p "AQI" = .ok (.num 150) ∧
      ∃ h m u : ℚ,
        getProp p "Healthy" = .ok (.num h) ∧
        getProp p "Moderate" = .ok (.num m) ∧
        getProp p "Unhealthy" = .ok (.num u) ∧
        h + m + u = 150 ∧
        (((150 : ℚ) < 100 ∧ h = 150 ∧ m = 0 ∧ u = 0) ∨
         ((100 : ℚ) ≤ 150 ∧ (150 : ℚ) < 200 ∧ m = 150 ∧ h = 0 ∧ u = 0) ∨
         ((200 : ℚ) ≤ 150 ∧ u = 150 ∧ h = 0 ∧ m = 0)) :=
  claim_C9 (.obj [("timestamp", .str "t"), ("aqi", .num 150)]) 150 rfl

/-- C10: when the overview fetch succeeds and a numeric field of the response
is `0`, the `|| '<demo>'` fallback replaces it: the displayed value is the
demo string (`'168'` / `'47'` / `'3'`), not `0` — a genuine zero reading is
indistinguishable from an absent field. -/
theorem claim_C10 :
    ∀ (data : JsValue) (m : MetricsState),
      truthy data = true → truthy (getPropD data "overview") = true →
      ((getPropD (getPropD data "overview") "current_aqi" = .num 0 →
        (dashboardOverviewStep (.ok data) m).currentAqi = .str "168") ∧
       (getPropD (getPropD data "overview") "bins_needing_collection" = .num 0 →
        (dashboardOverviewStep (.ok data) m).binsNeedingCollection = .str "47") ∧
       (getPropD (getPropD data "overview") "active_alerts" = .num 0 →
        (dashboardOverviewStep (.ok data) m).activeAlerts = .str "3")) := by
  intro data m hd hov
  have hz : truthy (.num 0) = false := rfl
  refine ⟨?_, ?_, ?_⟩ <;> intro hfield <;>
    simp [dashboardOverviewStep, dashboardOverviewApply, hd, hov, hfield, jsOr, hz]

/-- C10 witness: an overview response in which all three numeric fields are 0;
every displayed value is the demo fallback. -/
theorem claim_C10_witness :
    (dashboardOverviewStep
        (.ok (.obj [("overview", .obj [("current_aqi", .num 0),
          ("bins_needing_collection", .num 0), ("active_alerts", .num 0)])]))
        initialMetrics).currentAqi = .str "168" ∧
    (dashboardOverviewStep
        (.ok (.obj [("overview", .obj [("current_aqi", .num 0),
          ("bins_needing_collection", .num 0), ("active_alerts", .num 0)])]))
        initialMetrics).binsNeedingCollection = .str "47" ∧
    (dashboardOverviewStep
        (.ok (.obj [("overview", .obj [("current_aqi", .num 0),
          ("bins_needing_collection", .num 0), ("active_alerts", .num 0)])]))
        initialMetrics).activeAlerts = .str "3" := by
  have h := claim_C10
    (.obj [("overview", .obj [("current_aqi", .num 0),
      ("bins_needing_collection", .num 0), ("active_alerts", .num 0)])])
    initialMetrics rfl rfl
  exact ⟨h.1 rfl, h.2.1 rfl, h.2.2 rfl⟩

end SmartWasteDelhi
